import Mathlib

/-!
Verification development for the Otis dictation app
(`src/database.py`, `src/transcriber.py`, `src/app.py`).

The SQLite store is modelled as an explicit two-table state (`DB`);
REAL columns become `ℚ`, timestamps become `Nat` instants supplied by
the caller (standing in for `CURRENT_TIMESTAMP`), and each Python
method that touches the store becomes a pure state-passing function
following the source line by line. The per-operation connection of
`TranscriptionDatabase._get_connection` (commit on success, rollback on
exception) is modelled by running the body to an `Option` and keeping
the old state on `none`.
-/

namespace Otis

/-- Row of the `sessions` table (telemetry partition), mirroring the
CREATE TABLE statement in `TranscriptionDatabase._init_db`. -/
structure SessionRow where
  id : Nat
  created_at : Nat
  engine : String
  model : Option String
  language : Option String
  audio_duration : Option ℚ
  transcription_time : Option ℚ
  realtime_factor : Option ℚ
  tokens_total : Option Int
  cost_total : Option ℚ
  error : Option String
  synced_at : Option Nat
deriving DecidableEq

/-- Row of the `transcriptions` table (sensitive partition); `session_id`
is UNIQUE and references `sessions.id`. -/
structure TranscriptionRow where
  id : Nat
  session_id : Nat
  text : String
deriving DecidableEq

/-- The persistent store: both tables plus the AUTOINCREMENT counters
(SQLite rowids start at 1). -/
structure DB where
  sessions : List SessionRow
  transcriptions : List TranscriptionRow
  nextSessionId : Nat
  nextTranscriptionId : Nat
deriving DecidableEq

/-- A freshly initialised database (`_init_db` on a new file). -/
def emptyDB : DB := ⟨[], [], 1, 1⟩

/-- Arguments of `TranscriptionDatabase.save_transcription`. The Python
`engine` parameter defaults to `None`, but every caller on the
telemetry path passes a concrete string (a `None` engine would violate
the NOT NULL column constraint), so it is modelled as `String`; in the
`save_telemetry = False` branch the source ignores it entirely. -/
structure SaveArgs where
  text : String
  engine : String
  model : Option String
  language : Option String
  audio_duration : Option ℚ
  transcription_time : Option ℚ
  realtime_factor : Option ℚ
  tokens_total : Option Int
  cost_total : Option ℚ
  error : Option String
  save_telemetry : Bool
deriving DecidableEq

/-- Fault injection point for the transaction of `save_transcription`:
either the body runs to completion, or an exception is raised after the
`sessions` INSERT and before the `transcriptions` INSERT. -/
inductive TxnFault where
  | none
  | afterSessionInsert
deriving DecidableEq

/-- The session row inserted by `save_transcription`: the telemetry
branch inserts the caller-supplied metadata, the disabled branch inserts
the sentinel `("telemetry_disabled", None)` dummy row. `synced_at` and
`created_at` take their column defaults. -/
def insertedSessionRow (a : SaveArgs) (sid now : Nat) : SessionRow :=
  if a.save_telemetry then
    ⟨sid, now, a.engine, a.model, a.language, a.audio_duration,
      a.transcription_time, a.realtime_factor, a.tokens_total,
      a.cost_total, a.error, Option.none⟩
  else
    ⟨sid, now, "telemetry_disabled", Option.none, Option.none, Option.none,
      Option.none, Option.none, Option.none, Option.none, Option.none,
      Option.none⟩

/-- Body of `save_transcription` as run inside the connection: INSERT
into `sessions`, then (unless the injected fault fires there) INSERT the
text into `transcriptions`. `Option.none` models an uncaught exception
escaping the `with self._get_connection()` block. -/
def save_transcription_body (db : DB) (now : Nat) (a : SaveArgs)
    (fault : TxnFault) : Option (DB × Nat) :=
  let sid := db.nextSessionId
  let db1 : DB :=
    { db with
      sessions := db.sessions ++ [insertedSessionRow a sid now],
      nextSessionId := sid + 1 }
  match fault with
  | TxnFault.afterSessionInsert => Option.none
  | TxnFault.none =>
      Option.some
        ({ db1 with
            transcriptions :=
              db1.transcriptions ++ [⟨db1.nextTranscriptionId, sid, a.text⟩],
            nextTranscriptionId := db1.nextTranscriptionId + 1 }, sid)

/-- `save_transcription` under `_get_connection` semantics: the body's
result is committed on success; on an exception the transaction is
rolled back, leaving the store unchanged, and no session id is
returned. -/
def save_transcription (db : DB) (now : Nat) (a : SaveArgs)
    (fault : TxnFault) : DB × Option Nat :=
  match save_transcription_body db now a fault with
  | Option.some (db2, sid) => (db2, Option.some sid)
  | Option.none => (db, Option.none)

/-- The WHERE clause of `get_history`:
`s.error IS NULL AND s.engine != 'telemetry_disabled'`. -/
def historyFilter (s : SessionRow) : Bool :=
  s.error.isNone && !(s.engine == "telemetry_disabled")

/-- Insert one session row into a list kept in descending `created_at`
order (the `ORDER BY s.created_at DESC` of `get_history`). -/
def insertDesc (s : SessionRow) : List SessionRow → List SessionRow
  | [] => [s]
  | t :: rest =>
      if s.created_at ≤ t.created_at then t :: insertDesc s rest
      else s :: t :: rest

/-- Sort session rows by `created_at`, most recent first. -/
def sortByCreatedDesc : List SessionRow → List SessionRow
  | [] => []
  | s :: rest => insertDesc s (sortByCreatedDesc rest)

/-- `get_transcription`: `SELECT text FROM transcriptions WHERE
session_id = ?`, first row or `None`; `session_id` is UNIQUE so the
first match is the only one. -/
def get_transcription (db : DB) (session_id : Nat) : Option String :=
  (db.transcriptions.find? (fun t => t.session_id == session_id)).map
    (fun t => t.text)

/-- One row of the `get_history` result set. -/
structure HistoryEntry where
  sid : Nat
  created_at : Nat
  engine : String
  model : Option String
  language : Option String
  audio_duration : Option ℚ
  transcription_time : Option ℚ
  realtime_factor : Option ℚ
  text : Option String
deriving DecidableEq

/-- The SELECT list of `get_history` for one session row: its metadata
columns joined (LEFT JOIN on the UNIQUE `session_id`) with the text of
its transcription row, if any. -/
def mkEntry (db : DB) (s : SessionRow) : HistoryEntry :=
  ⟨s.id, s.created_at, s.engine, s.model, s.language, s.audio_duration,
    s.transcription_time, s.realtime_factor, get_transcription db s.id⟩

/-- `get_history`: filter by the WHERE clause, order by `created_at`
descending, apply LIMIT, and LEFT JOIN each surviving session with its
transcription text. -/
def get_history (db : DB) (limit : Nat) : List HistoryEntry :=
  ((sortByCreatedDesc (db.sessions.filter historyFilter)).take limit).map
    (mkEntry db)

/-- `clear_sensitive_data`: `DELETE FROM transcriptions`, sessions
untouched. -/
def clear_sensitive_data (db : DB) : DB :=
  { db with transcriptions := [] }

/-- Result of `get_stats`. -/
structure Stats where
  total_sessions : Nat
  total_transcriptions : Nat
deriving DecidableEq

/-- `get_stats`: `COUNT(*)` over each table. -/
def get_stats (db : DB) : Stats :=
  ⟨db.sessions.length, db.transcriptions.length⟩

/-- `mark_synced`: `UPDATE sessions SET synced_at = CURRENT_TIMESTAMP
WHERE id IN (...)`. SQLite accepts an empty IN list and evaluates it as
false, so an empty `session_ids` list matches no row; the statement
raises no error either way. -/
def mark_synced (db : DB) (session_ids : List Nat) (now : Nat) : DB :=
  { db with
    sessions := db.sessions.map
      (fun s =>
        if s.id ∈ session_ids then { s with synced_at := Option.some now }
        else s) }

/-- The backend choices of `src/transcriber.py` plus the `mistral`
branch that `app.py` dispatches on. -/
inductive TranscriberChoice where
  | gemini
  | whisper
  | mistral
deriving DecidableEq

/-- Environment variables, as seen through `os.environ.get` /
`os.getenv`. -/
def EnvMap : Type := String → Option String

/-- `get_transcriber` of `src/transcriber.py`: `"gemini"` builds a
`GeminiTranscriber`, whose `__init__` reads `GOOGLE_API_KEY` from the
environment and raises before constructing any client when it is
absent; `"whisper"` builds a `WhisperTranscriber`, whose `__init__`
unconditionally raises `NotImplementedError`; any other engine name
raises `ValueError`. -/
def get_transcriber (engine : String) (env : EnvMap) :
    Except String TranscriberChoice :=
  if engine == "gemini" then
    match env "GOOGLE_API_KEY" with
    | Option.none => Except.error "GOOGLE_API_KEY not found in environment"
    | Option.some _ => Except.ok TranscriberChoice.gemini
  else if engine == "whisper" then
    Except.error "Whisper transcription coming soon!"
  else
    Except.error ("Unknown transcription engine: " ++ engine)

/-- Engine dispatch of `OtisDictationApp._transcribe_audio` (lines
177-191): the `"gemini"` and `"mistral"` branches check their
credential in the environment and raise `ValueError` when it is
missing; every other engine string falls into the `else` branch and
selects the whisper backend. -/
def app_select_transcriber (engine : String) (env : EnvMap) :
    Except String TranscriberChoice :=
  if engine == "gemini" then
    match env "GOOGLE_API_KEY" with
    | Option.none => Except.error "GOOGLE_API_KEY not found in environment"
    | Option.some _ => Except.ok TranscriberChoice.gemini
  else if engine == "mistral" then
    match env "MISTRAL_API_KEY" with
    | Option.none => Except.error "MISTRAL_API_KEY not found in environment"
    | Option.some _ => Except.ok TranscriberChoice.mistral
  else
    Except.ok TranscriberChoice.whisper

/-- `realtime_factor = transcription_time / audio_duration if
audio_duration > 0 else 0` (app.py line 197). Total: no division error
is possible. -/
def realtime_factor (transcription_time audio_duration : ℚ) : ℚ :=
  if 0 < audio_duration then transcription_time / audio_duration else 0

/-- `speed_multiplier = audio_duration / transcription_time if
transcription_time > 0 else 0` (app.py line 198). Total: no division
error is possible. -/
def speed_multiplier (audio_duration transcription_time : ℚ) : ℚ :=
  if 0 < transcription_time then audio_duration / transcription_time else 0

/-- States of the session controller (`STATE_IDLE`, `STATE_RECORDING`,
`STATE_TRANSCRIBING`). -/
inductive AppState where
  | idle
  | recording
  | transcribing
deriving DecidableEq

/-- Normalised value of `transcriber.transcribe(audio_file)` as
consumed by `_transcribe_audio`: mandatory text and wall-clock time,
optional model identifier and debug token/cost totals. -/
structure BackendResult where
  text : String
  transcription_time : ℚ
  model : Option String
  tokens_total : Option Int
  cost_total : Option ℚ
deriving DecidableEq

/-- Observable outcome of one `_transcribe_audio` run: the store after
the attempt, the controller state when the method returns, whether the
backend call was reached, and the error surfaced to the user, if any. -/
structure FlowResult where
  db : DB
  state : AppState
  backendInvoked : Bool
  errored : Option String
deriving DecidableEq

/-- `OtisDictationApp._transcribe_audio`: select the backend from the
settings engine (raising before any backend call when a cloud
credential is missing), run the backend (its success or failure is the
`backendOutcome` parameter), derive the metrics, and save through
`save_transcription` according to the telemetry flag. Any raised error
is caught by the `except` block, which only notifies; the `finally`
block always returns the controller to idle. -/
def transcribe_audio_flow (db : DB) (now : Nat) (env : EnvMap)
    (engine language : String) (telemetry_enabled : Bool)
    (backendOutcome : Except String BackendResult)
    (audio_duration : ℚ) : FlowResult :=
  match app_select_transcriber engine env with
  | Except.error e => ⟨db, AppState.idle, false, Option.some e⟩
  | Except.ok _ =>
    match backendOutcome with
    | Except.error e => ⟨db, AppState.idle, true, Option.some e⟩
    | Except.ok r =>
        let rf := realtime_factor r.transcription_time audio_duration
        if telemetry_enabled then
          let a : SaveArgs :=
            ⟨r.text, engine, r.model,
              if engine == "whisper" then Option.some language
              else Option.none,
              Option.some audio_duration,
              Option.some r.transcription_time, Option.some rf,
              r.tokens_total, r.cost_total, Option.none, true⟩
          ⟨(save_transcription db now a TxnFault.none).1, AppState.idle,
            true, Option.none⟩
        else
          let a : SaveArgs :=
            ⟨r.text, engine, Option.none, Option.none, Option.none,
              Option.none, Option.none, Option.none, Option.none,
              Option.none, false⟩
          ⟨(save_transcription db now a TxnFault.none).1, AppState.idle,
            true, Option.none⟩

/-- `OtisDictationApp._record_with_vad`: on an exception the handler
sets the state back to idle; when recording produces no audio file the
method returns with the state still `recording`; otherwise the state
moves to `transcribing` and `_transcribe_audio` runs, whose `finally`
ends at idle. `recordOutcome` is the result of `recorder.record()`:
an exception, or an optional audio file with its duration. -/
def record_with_vad_flow (db : DB) (now : Nat) (env : EnvMap)
    (engine language : String) (telemetry_enabled : Bool)
    (recordOutcome : Except String (Option String × ℚ))
    (backendOutcome : Except String BackendResult) : FlowResult :=
  match recordOutcome with
  | Except.error e => ⟨db, AppState.idle, false, Option.some e⟩
  | Except.ok (Option.none, _) => ⟨db, AppState.recording, false, Option.none⟩
  | Except.ok (Option.some _, dur) =>
      transcribe_audio_flow db now env engine language telemetry_enabled
        backendOutcome dur

/-- Membership is preserved by ordered insertion. -/
theorem mem_insertDesc {a s : SessionRow} {l : List SessionRow} :
    a ∈ insertDesc s l ↔ a = s ∨ a ∈ l := by
  induction l with
  | nil => simp [insertDesc]
  | cons t rest ih =>
      by_cases h : s.created_at ≤ t.created_at
      · simp only [insertDesc, if_pos h, List.mem_cons, ih]
        tauto
      · simp only [insertDesc, if_neg h, List.mem_cons]

/-- Ordered insertion grows the list by one. -/
theorem length_insertDesc (s : SessionRow) (l : List SessionRow) :
    (insertDesc s l).length = l.length + 1 := by
  induction l with
  | nil => rfl
  | cons t rest ih =>
      by_cases h : s.created_at ≤ t.created_at
      · simp only [insertDesc, if_pos h, List.length_cons, ih]
      · simp only [insertDesc, if_neg h, List.length_cons]

/-- Sorting by creation time preserves membership. -/
theorem mem_sortByCreatedDesc {a : SessionRow} {l : List SessionRow} :
    a ∈ sortByCreatedDesc l ↔ a ∈ l := by
  induction l with
  | nil => simp [sortByCreatedDesc]
  | cons s rest ih => simp [sortByCreatedDesc, mem_insertDesc, ih]

/-- Sorting by creation time preserves length. -/
theorem length_sortByCreatedDesc (l : List SessionRow) :
    (sortByCreatedDesc l).length = l.length := by
  induction l with
  | nil => rfl
  | cons s rest ih =>
      simp [sortByCreatedDesc, length_insertDesc, ih]

/-- C2: save_transcription is atomic. A failure raised after the
session INSERT and before the transcript INSERT rolls the transaction
back, so neither row is committed and the store is returned unchanged;
on success both rows are committed together, the session row with its
transcript row. -/
theorem c2_save_transcription_atomic (db : DB) (now : Nat) (a : SaveArgs)
    (fault : TxnFault) :
    (fault = TxnFault.afterSessionInsert →
      save_transcription db now a fault = (db, Option.none)) ∧
    (fault = TxnFault.none →
      save_transcription db now a fault =
        ({ sessions :=
             db.sessions ++ [insertedSessionRow a db.nextSessionId now],
           transcriptions :=
             db.transcriptions ++
               [⟨db.nextTranscriptionId, db.nextSessionId, a.text⟩],
           nextSessionId := db.nextSessionId + 1,
           nextTranscriptionId := db.nextTranscriptionId + 1 },
         Option.some db.nextSessionId)) := by
  constructor
  · intro h
    subst h
    rfl
  · intro h
    subst h
    rfl

/-- Witness for C2: concrete run on the fresh store, once with the
injected mid-transaction failure (rollback, no rows) and once without
(both rows committed). -/
theorem c2_witness :
    save_transcription emptyDB 7
        ⟨"hello", "whisper", Option.none, Option.some "fr", Option.some 3,
          Option.some 1, Option.some (1 / 3), Option.none, Option.none,
          Option.none, true⟩
        TxnFault.afterSessionInsert = (emptyDB, Option.none) ∧
    save_transcription emptyDB 7
        ⟨"hello", "whisper", Option.none, Option.some "fr", Option.some 3,
          Option.some 1, Option.some (1 / 3), Option.none, Option.none,
          Option.none, true⟩
        TxnFault.none =
      ({ sessions :=
           [insertedSessionRow
             ⟨"hello", "whisper", Option.none, Option.some "fr",
               Option.some 3, Option.some 1, Option.some (1 / 3),
               Option.none, Option.none, Option.none, true⟩ 1 7],
         transcriptions := [⟨1, 1, "hello"⟩],
         nextSessionId := 2,
         nextTranscriptionId := 2 }, Option.some 1) := by
  exact ⟨(c2_save_transcription_atomic emptyDB 7 _ _).1 rfl,
         (c2_save_transcription_atomic emptyDB 7 _ _).2 rfl⟩

/-- C3: clear_sensitive_data deletes every row of the transcriptions
table and leaves the sessions table unchanged, so get_stats afterwards
reports zero total transcriptions and the same total sessions as
before. -/
theorem c3_clear_sensitive_data_frame (db : DB) :
    (clear_sensitive_data db).transcriptions = [] ∧
    (clear_sensitive_data db).sessions = db.sessions ∧
    get_stats (clear_sensitive_data db) =
      ⟨(get_stats db).total_sessions, 0⟩ := by
  exact ⟨rfl, rfl, rfl⟩

/-- C6: realtime_factor equals transcription_time / audio_duration for
every nonzero duration and is 0 when the duration is 0, and
speed_multiplier equals audio_duration / transcription_time for every
nonzero transcription time and is 0 when it is 0; both are total
functions on ℚ, so no division error can be raised. -/
theorem c6_metrics_zero_guard (t d : ℚ) (ht : 0 ≤ t) (hd : 0 ≤ d) :
    realtime_factor t 0 = 0 ∧ speed_multiplier d 0 = 0 ∧
    (d ≠ 0 → realtime_factor t d = t / d) ∧
    (t ≠ 0 → speed_multiplier d t = d / t) := by
  refine ⟨by simp [realtime_factor], by simp [speed_multiplier], ?_, ?_⟩
  · intro h
    have hpos : 0 < d := lt_of_le_of_ne hd (Ne.symm h)
    simp [realtime_factor, hpos]
  · intro h
    have hpos : 0 < t := lt_of_le_of_ne ht (Ne.symm h)
    simp [speed_multiplier, hpos]

/-- Witness for C6 at transcription time 3 and audio duration 2. -/
theorem c6_witness :
    realtime_factor 3 0 = 0 ∧ speed_multiplier 2 0 = 0 ∧
    realtime_factor 3 2 = 3 / 2 ∧ speed_multiplier 2 3 = 2 / 3 := by
  have h := c6_metrics_zero_guard 3 2 (by norm_num) (by norm_num)
  exact ⟨h.1, h.2.1, h.2.2.1 (by norm_num), h.2.2.2 (by norm_num)⟩

/-- A minimal session row used in concrete instances: id `sid`, created
at instant `sid`, whisper engine, all nullable columns null except the
given sync timestamp. -/
def plainRow (sid : Nat) (sy : Option Nat) : SessionRow :=
  ⟨sid, sid, "whisper", Option.none, Option.none, Option.none, Option.none,
    Option.none, Option.none, Option.none, Option.none, sy⟩

/-- C10 counterexample: on a store holding one session row, mark_synced
with the empty id list raises no error and is a no-op. SQLite accepts
an empty IN list and evaluates it as false, so the UPDATE matches no
row and the store is returned unchanged rather than an error being
raised. -/
theorem c10_counterexample :
    mark_synced ⟨[plainRow 1 Option.none], [], 2, 1⟩ [] 9 =
      ⟨[plainRow 1 Option.none], [], 2, 1⟩ := by
  decide

/-- C10 (amended): mark_synced with an empty id list updates no row and
raises no error — it is a no-op; for every id list it never touches the
transcriptions table, keeps every session row in place, sets
synced_at on exactly the rows whose id is listed, and modifies no
other column of any row. -/
theorem c10_mark_synced (db : DB) (ids : List Nat) (now : Nat) :
    mark_synced db [] now = db ∧
    (mark_synced db ids now).transcriptions = db.transcriptions ∧
    (mark_synced db ids now).sessions.length = db.sessions.length ∧
    ∀ (i : Nat) (s u : SessionRow),
      db.sessions[i]? = Option.some s →
      (mark_synced db ids now).sessions[i]? = Option.some u →
      u.id = s.id ∧ u.created_at = s.created_at ∧ u.engine = s.engine ∧
      u.model = s.model ∧ u.language = s.language ∧
      u.audio_duration = s.audio_duration ∧
      u.transcription_time = s.transcription_time ∧
      u.realtime_factor = s.realtime_factor ∧
      u.tokens_total = s.tokens_total ∧ u.cost_total = s.cost_total ∧
      u.error = s.error ∧
      (s.id ∈ ids → u.synced_at = Option.some now) ∧
      (s.id ∉ ids → u = s) := by
  refine ⟨?_, rfl, by simp [mark_synced], ?_⟩
  · have h0 :
        (fun (s : SessionRow) =>
          if s.id ∈ ([] : List Nat) then
            { s with synced_at := Option.some now }
          else s) = fun s => s := by
      funext s
      simp
    simp [mark_synced, h0]
  · intro i s u hs hu
    have hmap : (mark_synced db ids now).sessions[i]? =
        Option.some
          (if s.id ∈ ids then { s with synced_at := Option.some now }
           else s) := by
      simp [mark_synced, List.getElem?_map, hs]
    rw [hmap] at hu
    have hu2 := Option.some.inj hu
    by_cases h : s.id ∈ ids
    · rw [if_pos h] at hu2
      subst hu2
      refine ⟨rfl, rfl, rfl, rfl, rfl, rfl, rfl, rfl, rfl, rfl, rfl,
        fun _ => rfl, fun hne => absurd h hne⟩
    · rw [if_neg h] at hu2
      subst hu2
      refine ⟨rfl, rfl, rfl, rfl, rfl, rfl, rfl, rfl, rfl, rfl, rfl,
        fun hin => absurd hin h, fun _ => rfl⟩

/-- Witness for C10: a two-row store with id list [2]; the listed row
gets its sync timestamp set, keeping its other columns. -/
theorem c10_witness :
    (plainRow 2 (Option.some 9)).id = (plainRow 2 Option.none).id ∧
    (plainRow 2 (Option.some 9)).engine = (plainRow 2 Option.none).engine ∧
    (plainRow 2 (Option.some 9)).synced_at = Option.some 9 := by
  have h := (c10_mark_synced
      ⟨[plainRow 1 Option.none, plainRow 2 Option.none], [], 3, 1⟩
      [2] 9).2.2.2 1 (plainRow 2 Option.none) (plainRow 2 (Option.some 9))
      (by decide) (by decide)
  exact ⟨h.1, h.2.2.1,
    h.2.2.2.2.2.2.2.2.2.2.2.1 (by decide)⟩

/-- C1 counterexample: with telemetry enabled, a transcription attempt
that fails at the backend writes nothing to the store at all: starting
from the fresh database, a failed attempt leaves the store identical —
zero session rows, not one failed session row with its error field
populated. -/
theorem c1_counterexample :
    (transcribe_audio_flow emptyDB 0 (fun _ => Option.none) "whisper" "fr"
        true (Except.error "network unreachable") 3).db = emptyDB := by
  rfl

/-- C1 (amended): when telemetry is enabled, a successful attempt
creates exactly one session row — with a null error field — together
with its one transcription row; a failed attempt (backend error, or a
configuration error raised before the backend call) creates no session
row and no transcription row at all: the error is only notified, never
persisted. -/
theorem c1_attempt_row_accounting (db : DB) (now : Nat) (env : EnvMap)
    (engine language : String) (r : BackendResult) (e : String)
    (ad : ℚ) (c : TranscriberChoice) :
    (transcribe_audio_flow db now env engine language true
        (Except.error e) ad).db = db ∧
    (app_select_transcriber engine env = Except.ok c →
      (transcribe_audio_flow db now env engine language true
          (Except.ok r) ad).db =
        { sessions := db.sessions ++
            [⟨db.nextSessionId, now, engine, r.model,
              (if engine == "whisper" then Option.some language
               else Option.none),
              Option.some ad, Option.some r.transcription_time,
              Option.some (realtime_factor r.transcription_time ad),
              r.tokens_total, r.cost_total, Option.none, Option.none⟩],
          transcriptions := db.transcriptions ++
            [⟨db.nextTranscriptionId, db.nextSessionId, r.text⟩],
          nextSessionId := db.nextSessionId + 1,
          nextTranscriptionId := db.nextTranscriptionId + 1 }) := by
  constructor
  · unfold transcribe_audio_flow
    cases app_select_transcriber engine env with
    | error e2 => rfl
    | ok c2 => rfl
  · intro hsel
    unfold transcribe_audio_flow
    rw [hsel]
    rfl

/-- Witness for C1: a successful whisper attempt on the fresh store
with telemetry enabled leaves exactly one session row. -/
theorem c1_witness :
    (transcribe_audio_flow emptyDB 0 (fun _ => Option.none) "whisper" "fr"
        true
        (Except.ok ⟨"bonjour", 1, Option.none, Option.none, Option.none⟩)
        3).db.sessions.length = 1 := by
  have h := (c1_attempt_row_accounting emptyDB 0 (fun _ => Option.none)
      "whisper" "fr" ⟨"bonjour", 1, Option.none, Option.none, Option.none⟩
      "unused" 3 TranscriberChoice.whisper).2 (by rfl)
  rw [h]
  rfl

/-- C4: every entry returned by get_history stems from a session row
whose error column is null and whose engine is not the sentinel
`telemetry_disabled` — rows failing either test are never returned,
even though they sit in the sessions table — and a telemetry-disabled
save does append a session row, bearing the sentinel engine, to the
sessions table. -/
theorem c4_history_excludes_error_and_disabled (db : DB) (limit : Nat)
    (entry : HistoryEntry) (now : Nat) (a : SaveArgs)
    (he : entry ∈ get_history db limit) (hdis : a.save_telemetry = false) :
    (entry.engine ≠ "telemetry_disabled" ∧
      ∃ s, s ∈ db.sessions ∧ s.id = entry.sid ∧
        s.error = Option.none ∧ s.engine = entry.engine) ∧
    (save_transcription db now a TxnFault.none).1.sessions =
      db.sessions ++
        [⟨db.nextSessionId, now, "telemetry_disabled", Option.none,
          Option.none, Option.none, Option.none, Option.none, Option.none,
          Option.none, Option.none, Option.none⟩] := by
  constructor
  · unfold get_history at he
    obtain ⟨s, hs, rfl⟩ := List.mem_map.1 he
    have hst : s ∈ sortByCreatedDesc (db.sessions.filter historyFilter) :=
      List.mem_of_mem_take hs
    have hmem := mem_sortByCreatedDesc.1 hst
    obtain ⟨hins, hf⟩ := List.mem_filter.1 hmem
    have hsplit := hf
    simp only [historyFilter, Bool.and_eq_true, Bool.not_eq_true',
      Option.isNone_iff_eq_none, beq_eq_false_iff_ne] at hsplit
    exact ⟨hsplit.2, s, hins, rfl, hsplit.1, rfl⟩
  · simp [save_transcription, save_transcription_body,
      insertedSessionRow, hdis]

/-- Witness for C4: a store holding one clean row, one failed row
(error populated) and one sentinel row; history with limit 5 returns
exactly the clean row's entry. -/
theorem c4_witness :
    (mkEntry
        ⟨[plainRow 1 Option.none,
          ⟨2, 2, "gemini", Option.none, Option.none, Option.none,
            Option.none, Option.none, Option.none, Option.none,
            Option.some "boom", Option.none⟩,
          ⟨3, 3, "telemetry_disabled", Option.none, Option.none,
            Option.none, Option.none, Option.none, Option.none,
            Option.none, Option.none, Option.none⟩], [], 4, 1⟩
        (plainRow 1 Option.none)).engine ≠ "telemetry_disabled" := by
  have h := (c4_history_excludes_error_and_disabled
      ⟨[plainRow 1 Option.none,
        ⟨2, 2, "gemini", Option.none, Option.none, Option.none,
          Option.none, Option.none, Option.none, Option.none,
          Option.some "boom", Option.none⟩,
        ⟨3, 3, "telemetry_disabled", Option.none, Option.none,
          Option.none, Option.none, Option.none, Option.none,
          Option.none, Option.none, Option.none⟩], [], 4, 1⟩
      5
      (mkEntry
        ⟨[plainRow 1 Option.none,
          ⟨2, 2, "gemini", Option.none, Option.none, Option.none,
            Option.none, Option.none, Option.none, Option.none,
            Option.some "boom", Option.none⟩,
          ⟨3, 3, "telemetry_disabled", Option.none, Option.none,
            Option.none, Option.none, Option.none, Option.none,
            Option.none, Option.none, Option.none⟩], [], 4, 1⟩
        (plainRow 1 Option.none))
      0
      ⟨"t", "whisper", Option.none, Option.none, Option.none, Option.none,
        Option.none, Option.none, Option.none, Option.none, false⟩
      (by decide) rfl)
  exact h.1.1

/-- C5 counterexample: for the unknown engine name `foo` the app's
engine dispatch raises no configuration error — it silently selects
the whisper backend. -/
theorem c5_counterexample :
    app_select_transcriber "foo" (fun _ => Option.none) =
      Except.ok TranscriberChoice.whisper := by
  rfl

/-- C5 (amended): the factory get_transcriber of transcriber.py does
fail fast with an error naming the unknown engine, for every engine
name it does not know; but the app-level dispatch in _transcribe_audio
silently defaults instead of failing: every engine name other than
`gemini` and `mistral` selects the whisper backend without any
configuration error. -/
theorem c5_engine_selection (engine : String) (env : EnvMap)
    (h1 : engine ≠ "gemini") (h2 : engine ≠ "whisper")
    (h3 : engine ≠ "mistral") :
    get_transcriber engine env =
      Except.error ("Unknown transcription engine: " ++ engine) ∧
    app_select_transcriber engine env =
      Except.ok TranscriberChoice.whisper := by
  constructor
  · simp [get_transcriber, beq_iff_eq, h1, h2]
  · simp [app_select_transcriber, beq_iff_eq, h1, h3]

/-- Witness for C5 at the unknown engine name `foo`. -/
theorem c5_witness :
    get_transcriber "foo" (fun _ => Option.none) =
      Except.error ("Unknown transcription engine: " ++ "foo") ∧
    app_select_transcriber "foo" (fun _ => Option.none) =
      Except.ok TranscriberChoice.whisper := by
  exact c5_engine_selection "foo" (fun _ => Option.none)
    (by decide) (by decide) (by decide)

/-- C7: when the credential of the selected cloud backend is absent
from the environment, the backend constructor and the app dispatch both
fail with a configuration error; the backend is never invoked (so no
network call is attempted) and the store is left unchanged — in
particular no session row carrying a misleading engine value is
written. -/
theorem c7_missing_credential_config_error (db : DB) (now : Nat)
    (env : EnvMap) (language : String) (telemetry_enabled : Bool)
    (outcome : Except String BackendResult) (ad : ℚ)
    (hg : env "GOOGLE_API_KEY" = Option.none)
    (hm : env "MISTRAL_API_KEY" = Option.none) :
    get_transcriber "gemini" env =
      Except.error "GOOGLE_API_KEY not found in environment" ∧
    transcribe_audio_flow db now env "gemini" language telemetry_enabled
        outcome ad =
      ⟨db, AppState.idle, false,
        Option.some "GOOGLE_API_KEY not found in environment"⟩ ∧
    transcribe_audio_flow db now env "mistral" language telemetry_enabled
        outcome ad =
      ⟨db, AppState.idle, false,
        Option.some "MISTRAL_API_KEY not found in environment"⟩ := by
  refine ⟨?_, ?_, ?_⟩
  · simp [get_transcriber, hg]
  · simp [transcribe_audio_flow, app_select_transcriber, hg]
  · simp [transcribe_audio_flow, app_select_transcriber, hm]

/-- Witness for C7: empty environment, fresh store, gemini and mistral
selections both fail before the backend is reached. -/
theorem c7_witness :
    transcribe_audio_flow emptyDB 0 (fun _ => Option.none) "gemini" "fr"
        true (Except.ok ⟨"t", 1, Option.none, Option.none, Option.none⟩)
        3 =
      ⟨emptyDB, AppState.idle, false,
        Option.some "GOOGLE_API_KEY not found in environment"⟩ := by
  exact (c7_missing_credential_config_error emptyDB 0
      (fun _ => Option.none) "fr" true
      (Except.ok ⟨"t", 1, Option.none, Option.none, Option.none⟩) 3
      rfl rfl).2.1

/-- C8: an error raised while recording sends the controller back to
idle, and every run of _transcribe_audio — success, configuration
error, or backend failure — ends with the controller back at idle, so
a new attempt can be started immediately. -/
theorem c8_controller_returns_to_idle (db : DB) (now : Nat) (env : EnvMap)
    (engine language : String) (telemetry_enabled : Bool) (e : String)
    (backendOutcome : Except String BackendResult) (ad : ℚ) :
    (record_with_vad_flow db now env engine language telemetry_enabled
        (Except.error e) backendOutcome).state = AppState.idle ∧
    (transcribe_audio_flow db now env engine language telemetry_enabled
        backendOutcome ad).state = AppState.idle := by
  constructor
  · rfl
  · unfold transcribe_audio_flow
    cases app_select_transcriber engine env with
    | error e2 => rfl
    | ok c =>
        cases backendOutcome with
        | error e2 => rfl
        | ok r => cases telemetry_enabled <;> rfl

/-- C9: get_history keeps sessions whose transcription row is gone: a
session row that passes the WHERE filter and fits in the limit is still
returned after its transcription row has been deleted (as by
clear_sensitive_data), with a null text field — the LEFT JOIN does not
exclude sessions lacking a transcription row. -/
theorem c9_history_left_join_keeps_sessions (db : DB) (limit : Nat)
    (s : SessionRow)
    (hs : s ∈ db.sessions) (herr : s.error = Option.none)
    (heng : s.engine ≠ "telemetry_disabled")
    (hlim : (db.sessions.filter historyFilter).length ≤ limit)
    (hno : ∀ t ∈ db.transcriptions, t.session_id ≠ s.id) :
    mkEntry db s ∈ get_history db limit ∧
    (mkEntry db s).text = Option.none := by
  have hf : historyFilter s = true := by
    simp [historyFilter, herr, heng]
  constructor
  · have hmem : s ∈ db.sessions.filter historyFilter :=
      List.mem_filter.2 ⟨hs, hf⟩
    have hsort : s ∈ sortByCreatedDesc (db.sessions.filter historyFilter) :=
      mem_sortByCreatedDesc.2 hmem
    have hall :
        (sortByCreatedDesc (db.sessions.filter historyFilter)).take limit =
          sortByCreatedDesc (db.sessions.filter historyFilter) :=
      List.take_of_length_le (by rw [length_sortByCreatedDesc]; exact hlim)
    unfold get_history
    rw [hall]
    exact List.mem_map_of_mem (mkEntry db) hsort
  · show get_transcription db s.id = Option.none
    unfold get_transcription
    have hfind :
        db.transcriptions.find? (fun t => t.session_id == s.id) =
          Option.none := by
      rw [List.find?_eq_none]
      intro t ht
      simpa using hno t ht
    rw [hfind]
    rfl

/-- Witness for C9: a store whose only session row survives the privacy
wipe (transcriptions table empty); history with limit 1 returns it with
a null text field. -/
theorem c9_witness :
    mkEntry ⟨[plainRow 1 Option.none], [], 2, 1⟩ (plainRow 1 Option.none) ∈
      get_history ⟨[plainRow 1 Option.none], [], 2, 1⟩ 1 ∧
    (mkEntry ⟨[plainRow 1 Option.none], [], 2, 1⟩
      (plainRow 1 Option.none)).text = Option.none := by
  exact c9_history_left_join_keeps_sessions
    ⟨[plainRow 1 Option.none], [], 2, 1⟩ 1 (plainRow 1 Option.none)
    (by decide) rfl (by decide) (by decide) (by decide)

end Otis
